import Mathlib

/-
  Shallow embedding of COSmon (src/COSmon/Source/COSmon.c), a Raspberry Pi
  COS (carrier-operated switch) monitor that keys/unkeys Allstar via
  asterisk commands, with a COS stuck-high watchdog, a shutdown switch
  debouncer and a network status LED handler.

  Conventions: wiringPi HIGH is `true`, LOW is `false`; `uint16_t`
  quantities are `Nat` kept below 65536 with explicit wraparound where the
  C code wraps; external effects (system(), printf, digitalWrite, ...) are
  reified as an `Effect` trace.
-/

namespace COSmon

/-- Key command string (COSmon.c line 163). -/
def KeyCmd : String := "asterisk -rx \"susb tune menu-support K\""

/-- Unkey command string (COSmon.c line 164). -/
def UnkeyCmd : String := "asterisk -rx \"susb tune menu-support k\""

/-- Shutdown script run when the shutdown switch activates (COSmon.c line 263). -/
def astdnCmd : String := "/usr/local/sbin/astdn.sh"

/-- Power-off command (COSmon.c line 265). -/
def poweroffCmd : String := "/usr/bin/poweroff"

/-- The `TimeoutCountCOS` computation of COSmon.c lines 191-193:
`tempval=(float)TimeoutMs/(float)LoopDelayMs; tempval += 0.5; TimeoutCountCOS=(int)tempval;`
i.e. the truncation of `TimeoutMs/LoopDelayMs + 1/2`, stored into a `uint16_t`.
For positive `loopDelayMs` the C float arithmetic agrees with this exact
rational computation whenever the quotient is exactly representable (in
particular at the configuration values appearing in the claims, 150000/100). -/
def timeoutCountCOS (timeoutMs loopDelayMs : Nat) : Nat :=
  ((2 * timeoutMs + loopDelayMs) / (2 * loopDelayMs)) % 65536

/-- State of the COS edge/watchdog logic inside `main`:
`LastCOSState` (line 134) and the `uint16_t TimeoutCount` (line 139). -/
structure CosState where
  lastCOSState : Bool
  timeoutCount : Nat
  deriving Repr, DecidableEq

/-- Commands sent to asterisk by the COS section: `system(KeyCmd)` / `system(UnkeyCmd)`. -/
inductive Intent
  | key
  | unkey
  deriving Repr, DecidableEq

/-- Result of one pass of the COS section of the main loop: the updated state,
the asterisk command issued (if any), and whether the `printf("COS Timeout\n")`
branch ran (which distinguishes a watchdog-timeout unkey from a falling-edge unkey). -/
structure CosOut where
  state : CosState
  intent : Option Intent
  timeoutFired : Bool
  deriving Repr, DecidableEq

/-- One pass of the COS section of the main loop (COSmon.c lines 216-252).
`en` is `COStimeoutEnable`, `tcc` is `TimeoutCountCOS`, `curr` is the freshly
read `CurrCOSState`. On a change: HIGH keys and sets `TimeoutCount=TimeoutCountCOS`;
LOW unkeys (leaving `TimeoutCount` untouched). With no change and the timeout
enabled: a positive count decrements while HIGH; a zero count prints
"COS Timeout", unkeys, and sets `TimeoutCount=-1`, i.e. 65535 on `uint16_t`. -/
def cosStep (en : Bool) (tcc : Nat) (s : CosState) (curr : Bool) : CosOut :=
  if s.lastCOSState ≠ curr then
    if curr = true then
      ⟨⟨curr, tcc⟩, some Intent.key, false⟩
    else
      ⟨⟨curr, s.timeoutCount⟩, some Intent.unkey, false⟩
  else if en then
    if 0 < s.timeoutCount ∧ curr = true then
      ⟨⟨s.lastCOSState, s.timeoutCount - 1⟩, none, false⟩
    else if s.timeoutCount = 0 then
      ⟨⟨s.lastCOSState, 65535⟩, some Intent.unkey, true⟩
    else
      ⟨s, none, false⟩
  else
    ⟨s, none, false⟩

/-- Run of the COS section over a sample sequence, recording for each tick the
state the section entered the tick with, the sample read, and the tick's output. -/
def cosRunP (en : Bool) (tcc : Nat) : CosState → List Bool → List (CosState × Bool × CosOut)
  | _, [] => []
  | s, b :: bs =>
    (s, b, cosStep en tcc s b) :: cosRunP en tcc (cosStep en tcc s b).state bs

/-- State of the COS section after `n` ticks during which every sample reads HIGH. -/
def cosIterHigh (en : Bool) (tcc : Nat) : CosState → Nat → CosState
  | s, 0 => s
  | s, n + 1 => cosIterHigh en tcc (cosStep en tcc s true).state n

/-- Output of the COS section at (0-based) tick `n` of a run in which every
sample reads HIGH. -/
def cosOutAtHigh (en : Bool) (tcc : Nat) (s : CosState) (n : Nat) : CosOut :=
  cosStep en tcc (cosIterHigh en tcc s n) true

/-- Unfolding of `cosIterHigh` at a successor tick count. -/
theorem cosIterHigh_succ (en : Bool) (tcc : Nat) (s : CosState) (n : Nat) :
    cosIterHigh en tcc s (n + 1) = cosIterHigh en tcc (cosStep en tcc s true).state n := rfl

/-- Iterating the COS section splits over addition of tick counts. -/
theorem cosIterHigh_add (en : Bool) (tcc : Nat) (s : CosState) (m n : Nat) :
    cosIterHigh en tcc s (m + n) = cosIterHigh en tcc (cosIterHigh en tcc s m) n := by
  induction m generalizing s with
  | zero => rw [Nat.zero_add]; rfl
  | succ m ih =>
    have h1 : m + 1 + n = (m + n) + 1 := by omega
    rw [h1, cosIterHigh_succ, ih, cosIterHigh_succ]

/-- With no edge, the timeout enabled and a positive count, a HIGH sample just
decrements `TimeoutCount` (COSmon.c lines 243-244). -/
theorem cosStep_active_pos (tcc c : Nat) (hc : 0 < c) :
    cosStep true tcc ⟨true, c⟩ true = ⟨⟨true, c - 1⟩, none, false⟩ := by
  simp [cosStep, hc]

/-- With no edge, the timeout enabled and a zero count, the timeout branch
fires: "COS Timeout" is printed, the unkey command runs and `TimeoutCount`
becomes `-1` = 65535 (COSmon.c lines 245-251). -/
theorem cosStep_active_zero (tcc : Nat) :
    cosStep true tcc ⟨true, 0⟩ true = ⟨⟨true, 65535⟩, some Intent.unkey, true⟩ := by
  simp [cosStep]

/-- A rising edge keys asterisk and arms the countdown at `TimeoutCountCOS`
(COSmon.c lines 227-232). -/
theorem cosStep_rising (en : Bool) (tcc c : Nat) :
    cosStep en tcc ⟨false, c⟩ true = ⟨⟨true, tcc⟩, some Intent.key, false⟩ := by
  simp [cosStep]

/-- While the level is held HIGH with the countdown armed at `c`, the first
`n ≤ c` ticks just count down. -/
theorem cosIterHigh_active (tcc : Nat) :
    ∀ n c : Nat, n ≤ c → cosIterHigh true tcc ⟨true, c⟩ n = ⟨true, c - n⟩ := by
  intro n
  induction n with
  | zero => intro c _; rfl
  | succ n ih =>
    intro c h
    have hc : 0 < c := lt_of_lt_of_le (Nat.succ_pos n) h
    rw [cosIterHigh_succ, cosStep_active_pos tcc c hc]
    rw [ih (c - 1) (by omega)]
    congr 1
    omega

/-- C2: the claim says that once the watchdog timeout has fired its unkey,
no further timeout unkey is emitted until a rising edge re-arms the countdown,
"even if the level stays active indefinitely". The code falsifies this: firing
sets `TimeoutCount=-1`, which is 65535 on `uint16_t`, and a held-HIGH level
decrements that sentinel back to 0, so with `TimeoutCountCOS = 1` and the level
HIGH from tick 0 on (a single rising edge at tick 0 and no edge afterwards),
the timeout branch fires at tick 2 and again at tick 65538. -/
theorem cosTimeout_fires_twice_without_rearm :
    (cosOutAtHigh true 1 ⟨false, 65535⟩ 2).timeoutFired = true ∧
    (cosOutAtHigh true 1 ⟨false, 65535⟩ 65538).timeoutFired = true := by
  constructor
  · decide
  · unfold cosOutAtHigh
    have h3 : cosIterHigh true 1 ⟨false, 65535⟩ 3 = ⟨true, 65535⟩ := by decide
    have e : (65538 : Nat) = 3 + 65535 := by norm_num
    rw [e, cosIterHigh_add, h3, cosIterHigh_active 1 65535 65535 (le_refl _), Nat.sub_self,
      cosStep_active_zero]

/-- C3: the claim says a falling edge always disarms the watchdog countdown, so
no timeout unkey can fire after a falling edge until re-armed. The code
falsifies this: the falling-edge branch (lines 233-237) leaves `TimeoutCount`
unchanged, and when the count is exactly 0 at the falling edge the timeout
branch fires on the very next tick while the level is LOW. With
`TimeoutCountCOS = 1` and samples HIGH, HIGH, LOW, LOW: tick 2 is the falling
edge (count stays 0) and tick 3, entered with `lastCOSState = false` and a LOW
sample, still runs the "COS Timeout" branch and unkeys. -/
theorem cosTimeout_fires_after_falling_edge :
    cosRunP true 1 ⟨false, 65535⟩ [true, true, false, false] =
      [(⟨false, 65535⟩, true, ⟨⟨true, 1⟩, some Intent.key, false⟩),
       (⟨true, 1⟩, true, ⟨⟨true, 0⟩, none, false⟩),
       (⟨true, 0⟩, false, ⟨⟨false, 0⟩, some Intent.unkey, false⟩),
       (⟨false, 0⟩, false, ⟨⟨false, 65535⟩, some Intent.unkey, true⟩)] := by
  decide

/-- C4 (counterexample): the claim puts the timeout `UnkeyIntent` at tick 1500
when `timeoutTicks = 1500` and the level goes active at tick 0 and stays
active. In the code the rising edge at tick 0 arms `TimeoutCount = 1500`,
ticks 1-1500 decrement it to 0, and the unkey fires only at tick 1501; at
tick 1500 no command is issued. -/
theorem cos_scenario_unkey_not_at_1500 :
    (cosOutAtHigh true 1500 ⟨false, 65535⟩ 1500).intent = none ∧
    (cosOutAtHigh true 1500 ⟨false, 65535⟩ 1501).intent = some Intent.unkey := by
  have h1 : cosIterHigh true 1500 ⟨false, 65535⟩ 1 = ⟨true, 1500⟩ := by decide
  constructor
  · unfold cosOutAtHigh
    have e : (1500 : Nat) = 1 + 1499 := by norm_num
    rw [e, cosIterHigh_add, h1, cosIterHigh_active 1500 1499 1500 (by omega),
      cosStep_active_pos 1500 (1500 - 1499) (by omega)]
  · unfold cosOutAtHigh
    have e : (1501 : Nat) = 1 + 1500 := by norm_num
    rw [e, cosIterHigh_add, h1, cosIterHigh_active 1500 1500 1500 (le_refl _), Nat.sub_self,
      cosStep_active_zero]

/-- C4 (amended): with `loopDelayMs = 100` and `cosTimeoutMs = 150000` the
derived `TimeoutCountCOS` equals 1500, and if the level goes active at tick 0
and stays active with no further edge, the code emits the key command at
tick 0, the timeout unkey command at tick 1501 (the tick after the countdown
reaches zero), and no command at any other tick before the wrapped `uint16_t`
countdown fires again at tick 67037. -/
theorem cos_scenario_tick_intents (k : Nat) (hk : k ≤ 67036) :
    timeoutCountCOS 150000 100 = 1500 ∧
    (cosOutAtHigh true 1500 ⟨false, 65535⟩ k).intent =
      (if k = 0 then some Intent.key else if k = 1501 then some Intent.unkey else none) := by
  refine ⟨by decide, ?_⟩
  cases k with
  | zero => decide
  | succ j =>
    unfold cosOutAtHigh
    rw [cosIterHigh_succ]
    have hs : (cosStep true 1500 ⟨false, 65535⟩ true).state = ⟨true, 1500⟩ := by decide
    rw [hs]
    by_cases h1 : j ≤ 1499
    · rw [cosIterHigh_active 1500 j 1500 (by omega),
        cosStep_active_pos 1500 (1500 - j) (by omega)]
      have c0 : ¬(j + 1 = 0) := by omega
      have c1 : ¬(j + 1 = 1501) := by omega
      simp [c0, c1]
    · by_cases h2 : j = 1500
      · subst h2
        rw [cosIterHigh_active 1500 1500 1500 (le_refl _), Nat.sub_self, cosStep_active_zero]
        simp
      · have e : j = 1500 + (1 + (j - 1501)) := by omega
        have e2 : 1 + (j - 1501) = (j - 1501) + 1 := by omega
        have hz : (cosStep true 1500 ⟨true, 0⟩ true).state = ⟨true, 65535⟩ := by decide
        have hiter : cosIterHigh true 1500 ⟨true, 1500⟩ j = ⟨true, 65535 - (j - 1501)⟩ := by
          conv_lhs => rw [e]
          rw [cosIterHigh_add, cosIterHigh_active 1500 1500 1500 (le_refl _), Nat.sub_self,
            e2, cosIterHigh_succ, hz, cosIterHigh_active 1500 (j - 1501) 65535 (by omega)]
        rw [hiter, cosStep_active_pos 1500 (65535 - (j - 1501)) (by omega)]
        have c0 : ¬(j + 1 = 0) := by omega
        have c1 : ¬(j + 1 = 1501) := by omega
        simp [c0, c1]

/-- Witness for `cos_scenario_tick_intents` at the concrete tick 1501. -/
theorem cos_scenario_tick_intents_witness :
    (1501 ≤ 67036) ∧
    (timeoutCountCOS 150000 100 = 1500 ∧
     (cosOutAtHigh true 1500 ⟨false, 65535⟩ 1501).intent =
       (if 1501 = 0 then some Intent.key
        else if 1501 = 1501 then some Intent.unkey else none)) :=
  ⟨by decide, cos_scenario_tick_intents 1501 (by decide)⟩

/-- C8: if `COStimeoutEnable` is false, then on every sample sequence the COS
section issues the unkey command only on a falling edge (the section entered
the tick with `LastCOSState` HIGH and read a LOW sample): with the timeout
disabled the only unkey site left is the falling-edge branch of lines 233-237. -/
theorem cosTimeoutDisabled_unkey_only_on_falling_edge (tcc : Nat) (s : CosState)
    (bs : List Bool) (e : CosState × Bool × CosOut)
    (he : e ∈ cosRunP false tcc s bs) (hu : e.2.2.intent = some Intent.unkey) :
    e.1.lastCOSState = true ∧ e.2.1 = false := by
  induction bs generalizing s with
  | nil => simp [cosRunP] at he
  | cons b bs ih =>
    simp only [cosRunP, List.mem_cons] at he
    rcases he with h | h
    · subst h
      rcases s with ⟨l, c⟩
      cases l <;> cases b <;> simp [cosStep] at hu ⊢
    · exact ih _ h

/-- Witness for `cosTimeoutDisabled_unkey_only_on_falling_edge`: a falling edge
with the timeout disabled, on the one-sample sequence `[LOW]` from a HIGH
last state. -/
theorem cosTimeoutDisabled_unkey_witness :
    (((⟨true, 7⟩ : CosState), false, cosStep false 9 ⟨true, 7⟩ false).1.lastCOSState = true ∧
     ((⟨true, 7⟩ : CosState), false, cosStep false 9 ⟨true, 7⟩ false).2.1 = false) :=
  cosTimeoutDisabled_unkey_only_on_falling_edge 9 ⟨true, 7⟩ [false] _ (by decide) (by decide)

/-- The body of `wifiLightHandler` (COSmon.c lines 97-116). `ipLen` is
`strlen(IPaddr)` after `getIPaddress`, `lastWrite` the function's `static
uint8_t lastWrite` (HIGH is `true`; it is initialized to LOW). Returns the
level passed to `digitalWrite(networkStatusPin, _)` if any, and the value of
`lastWrite` after the call. Note the source re-assigns `lastWrite` the value
it already had in both branches (`lastWrite=HIGH` is only reachable when
`lastWrite==HIGH`, and `lastWrite=LOW` only when `lastWrite==LOW`). -/
def wifiLightHandler (ipLen : Nat) (lastWrite : Bool) : Option Bool × Bool :=
  if ipLen = 0 ∧ lastWrite = true then
    (some false, true)
  else if ¬ipLen = 0 ∧ lastWrite = false then
    (some true, false)
  else
    (none, lastWrite)

/-- Consecutive `wifiLightHandler` calls on a list of `strlen(IPaddr)` values,
threading the static `lastWrite`; returns the per-call write actions. -/
def wifiRun : Bool → List Nat → List (Option Bool)
  | _, [] => []
  | lw, n :: ns => (wifiLightHandler n lw).1 :: wifiRun (wifiLightHandler n lw).2 ns

/-- C5 (counterexample): the claim says the indicator writes the pin HIGH when
disconnected (empty address) and LOW when connected (non-empty address). The
code does the opposite: from the initial `lastWrite = LOW` state, a check that
finds a non-empty address (length 11, e.g. "192.168.1.5") writes HIGH, and the
only branch that writes while the address is empty writes LOW. -/
theorem wifiLight_polarity_counterexample :
    (wifiLightHandler 11 false).1 = some true ∧
    (wifiLightHandler 0 true).1 = some false := by
  decide

/-- C5 (amended): whenever `wifiLightHandler` writes the network status pin,
it writes HIGH exactly when the address string is non-empty (connected) and
LOW exactly when it is empty (disconnected). -/
theorem wifiLight_polarity (ipLen : Nat) (lw : Bool) (b : Bool)
    (h : (wifiLightHandler ipLen lw).1 = some b) :
    (b = true ↔ ¬ipLen = 0) := by
  by_cases h0 : ipLen = 0 <;> cases lw <;>
    simp [wifiLightHandler, h0] at h ⊢ <;> simp [h]

/-- Witness for `wifiLight_polarity`: a connected check from the initial
state writes HIGH. -/
theorem wifiLight_polarity_witness :
    (wifiLightHandler 11 false).1 = some true ∧ (true = true ↔ ¬(11 : Nat) = 0) :=
  ⟨by decide, wifiLight_polarity 11 false true (by decide)⟩

/-- C6: the claim says that across consecutive checks with unchanged
connectivity presence at most the first causes a pin write. The code falsifies
this: because `lastWrite` is never actually updated (both branches re-assign
its old value), two consecutive checks that both find a non-empty address
(length 11) each write HIGH. -/
theorem wifiLight_redundant_writes :
    wifiRun false [11, 11] = [some true, some true] := by
  decide

/-- The shutdown-switch handling of one main-loop pass (COSmon.c lines
254-271). `count` is the `uint16_t SDswitchPressedCount`, `pinLevel` the value
read from `shutdownSwitchPin` (active low). Returns the updated count and
whether the shutdown sequence (acknowledge write, astdn.sh, poweroff, break)
runs this tick. Note: the source consults `shutdownSwitchEnable` nowhere in
this section. -/
def shutdownStep (activateCount count : Nat) (pinLevel : Bool) : Nat × Bool :=
  if pinLevel = false then
    ((count + 1) % 65536, activateCount < (count + 1) % 65536)
  else
    (0, false)

/-- `SDswitchPressedCount` after feeding a sequence of shutdown-pin samples,
starting from `count`. The source declares `SDswitchPressedCount` without an
initializer (line 148), so the value at entry to the loop is indeterminate
and is a parameter here. -/
def shutdownRun (activateCount : Nat) : Nat → List Bool → Nat
  | c, [] => c
  | c, b :: bs => shutdownRun activateCount (shutdownStep activateCount c b).1 bs

/-- C7: the claim says `pressedCount` is explicitly initialized to 0 before
the first sample, so after `k` consecutive pressed samples from process start
the count equals `k`. The code falsifies this: `SDswitchPressedCount` is
declared without an initializer, so its starting value is indeterminate; if
the leftover value is, e.g., 5, then after k = 1 pressed sample the count is
6, not 1. -/
theorem SDswitchPressedCount_uninitialized :
    shutdownRun 30 5 [false] = 6 ∧ ¬(6 : Nat) = 1 := by
  decide

/-- Observable actions of `main`: prints, pin configuration, pin writes,
`system()` invocations, delays, and the `getIPaddress` probe made by
`wifiLightHandler`. -/
inductive Effect
  | printErrNoAsterisk
  | printConfig
  | wiringPiSetupEff
  | pinModeInput (pin : Nat)
  | pinModeOutput (pin : Nat)
  | pullUpDnUp (pin : Nat)
  | writePin (pin : Nat) (level : Bool)
  | runCmd (cmd : String)
  | printCOSTimeout
  | printShuttingDown
  | delayMs (ms : Nat)
  | getIP
  deriving Repr, DecidableEq

/-- The configuration values `main` reads from /etc/COSmon.conf
(COSmon.c lines 152-161). -/
structure Config where
  extCOSPin : Nat
  networkStatusPin : Nat
  shutdownSwitchPin : Nat
  networkStatusOn : Bool
  shutdownSwitchEnable : Bool
  loopDelayMs : Nat
  timeoutMs : Nat
  cosTimeoutEnable : Bool
  netCheckDivisor : Nat
  sdActivateCount : Nat
  deriving Repr, DecidableEq

/-- Configuration with every field at its source default (COSmon.c lines 64-71
and the iniparser default arguments of lines 152-161); in particular
`enable_shutdown_switch` and `enable_network_status_LED` default to false. -/
def cfgDefault : Config := ⟨29, 3, 7, false, false, 100, 150000, true, 20, 30⟩

/-- Effects of `main` before the polling loop (COSmon.c lines 150-212), given
whether `/var/run/asterisk.ctl` exists (checked at line 168). When absent, the
error message goes to stderr and the process calls `exit(-1)`, before any pin
setup and before any `system()` call. When present: config printout, wiringPi
setup and pin setup (the network status pin is made an OUTPUT and written LOW
unconditionally), then one unconditional unkey. The second component is the
early-exit code, if any. -/
def startupEffects (cfg : Config) (ctlExists : Bool) : List Effect × Option Int :=
  if ctlExists = false then
    ([Effect.printErrNoAsterisk], some (-1))
  else
    ([Effect.printConfig, Effect.wiringPiSetupEff,
      Effect.pinModeInput cfg.extCOSPin,
      Effect.pinModeOutput cfg.networkStatusPin,
      Effect.writePin cfg.networkStatusPin false,
      Effect.pinModeInput cfg.shutdownSwitchPin,
      Effect.pullUpDnUp cfg.shutdownSwitchPin,
      Effect.runCmd UnkeyCmd], none)

/-- Mutable state carried across passes of the forever loop: the COS section
state, `SDswitchPressedCount`, `loopCount`, and `wifiLightHandler`'s static
`lastWrite`. -/
structure LoopState where
  cos : CosState
  sdCount : Nat
  loopCount : Nat
  wifiLast : Bool
  deriving Repr, DecidableEq

/-- Inputs sampled during one loop pass: the COS pin, the shutdown pin, and
the length of the address `getIPaddress` would report if called. -/
structure TickIn where
  cosLevel : Bool
  sdLevel : Bool
  ipLen : Nat
  deriving Repr, DecidableEq

/-- Result of one loop pass: next state, the effect trace of the pass, and
whether the pass ran the shutdown `break`. -/
structure TickOut where
  state : LoopState
  effects : List Effect
  terminated : Bool
  deriving Repr, DecidableEq

/-- Effects of the COS section for a given `cosStep` outcome: `system(KeyCmd)`
on key, `system(UnkeyCmd)` on unkey, preceded by the "COS Timeout" print when
the watchdog branch fired. -/
def cosEffects (o : CosOut) : List Effect :=
  match o.intent with
  | some Intent.key => [Effect.runCmd KeyCmd]
  | some Intent.unkey =>
    if o.timeoutFired then [Effect.printCOSTimeout, Effect.runCmd UnkeyCmd]
    else [Effect.runCmd UnkeyCmd]
  | none => []

/-- One full pass of the forever loop (COSmon.c lines 214-277): the COS
edge/timeout section, then the shutdown-switch section (which consults only
the pin and `SDswitchPressedCount`, never `shutdownSwitchEnable`, and on
activation writes the network pin HIGH, prints, runs astdn.sh, delays 5000 ms,
runs poweroff and breaks), then — only when not terminated — the network
check, gated by `(loopCount++ % netCheckDivisor)==0 && networkStatusOn`
(`loopCount` is a 32-bit unsigned counter incremented every pass that reaches
this statement), and the loop delay. -/
def loopTick (cfg : Config) (tcc : Nat) (s : LoopState) (inp : TickIn) : TickOut :=
  let co := cosStep cfg.cosTimeoutEnable tcc s.cos inp.cosLevel
  let sd := shutdownStep cfg.sdActivateCount s.sdCount inp.sdLevel
  if sd.2 then
    ⟨⟨co.state, sd.1, s.loopCount, s.wifiLast⟩,
     cosEffects co ++
       [Effect.writePin cfg.networkStatusPin true, Effect.printShuttingDown,
        Effect.runCmd astdnCmd, Effect.delayMs 5000, Effect.runCmd poweroffCmd],
     true⟩
  else
    let netCheck := s.loopCount % cfg.netCheckDivisor = 0 ∧ cfg.networkStatusOn = true
    let wifi := wifiLightHandler inp.ipLen s.wifiLast
    ⟨⟨co.state, sd.1, (s.loopCount + 1) % 4294967296,
      if netCheck then wifi.2 else s.wifiLast⟩,
     cosEffects co ++
       (if netCheck then
          Effect.getIP ::
            (match wifi.1 with
             | some lvl => [Effect.writePin cfg.networkStatusPin lvl]
             | none => [])
        else []) ++ [Effect.delayMs cfg.loopDelayMs],
     false⟩

/-- Run of the forever loop over a list of per-pass inputs, accumulating the
effect trace; stops early (returning `true`) when a pass runs the shutdown
`break`. -/
def loopRun (cfg : Config) (tcc : Nat) : LoopState → List TickIn → LoopState × List Effect × Bool
  | s, [] => (s, [], false)
  | s, i :: is =>
    let t := loopTick cfg tcc s i
    if t.terminated then (t.state, t.effects, true)
    else
      let r := loopRun cfg tcc t.state is
      (r.1, t.effects ++ r.2.1, r.2.2)

/-- Loop state at entry to the forever loop: `LastCOSState` comes from the
initial `digitalRead` (line 209), `TimeoutCount` is `-1` i.e. 65535 (line
196), `SDswitchPressedCount` is declared without an initializer (line 148) and
so its starting value is a parameter, `loopCount` is 0 (line 166), and
`wifiLightHandler`'s static `lastWrite` starts LOW. -/
def initState (initialCOS : Bool) (sdCount0 : Nat) : LoopState :=
  ⟨⟨initialCOS, 65535⟩, sdCount0, 0, false⟩

/-- C1: the claim says that when `enable_shutdown_switch` is false the
shutdown debouncer never runs, the shutdown commands are never invoked and the
loop never terminates via the shutdown path. The code falsifies this:
`shutdownSwitchEnable` is read and printed but never consulted in the loop.
With the default config (where `shutdownSwitchEnable = false` and
`SDswitchActivateCount = 30`), the COS pin LOW throughout, and the shutdown
pin held pressed (LOW) for 31 passes from a zero counter, the loop runs the
shutdown sequence, invokes poweroff and terminates. -/
theorem shutdownSwitch_fires_when_disabled :
    cfgDefault.shutdownSwitchEnable = false ∧
    (loopRun cfgDefault 1500 (initState false 0)
        (List.replicate 31 ⟨false, false, 0⟩)).2.2 = true ∧
    Effect.runCmd poweroffCmd ∈
      (loopRun cfgDefault 1500 (initState false 0)
        (List.replicate 31 ⟨false, false, 0⟩)).2.1 := by
  decide

/-- C9: if `/var/run/asterisk.ctl` is absent at startup, the process prints an
error and exits with the nonzero status -1 before entering the loop: its
whole effect trace is the single stderr message, containing no pin setup and
no `system()` invocation. -/
theorem missing_asterisk_ctl_exits_early (cfg : Config) :
    startupEffects cfg false = ([Effect.printErrNoAsterisk], some (-1)) ∧
    ¬(-1 : Int) = 0 := by
  exact ⟨rfl, by decide⟩

/-- The COS section issues only prints and asterisk commands; in particular it
never performs the connectivity probe. -/
theorem cosEffects_no_getIP (o : CosOut) : ¬Effect.getIP ∈ cosEffects o := by
  rcases o with ⟨st, intent, fired⟩
  rcases intent with _ | i
  · simp [cosEffects]
  · cases i <;> cases fired <;> simp [cosEffects]

/-- C10: the network status pin is configured as an OUTPUT and written LOW at
startup, and written HIGH as the shutdown acknowledgment, both regardless of
`networkStatusOn`; within a loop pass the connectivity check (`getIP`) runs
exactly when the pass does not terminate, `loopCount % netCheckDivisor` is 0
and `networkStatusOn` is set. -/
theorem networkStatusPin_unconditional (cfg : Config) (tcc : Nat) (s : LoopState)
    (inp : TickIn) :
    (Effect.pinModeOutput cfg.networkStatusPin ∈ (startupEffects cfg true).1 ∧
     Effect.writePin cfg.networkStatusPin false ∈ (startupEffects cfg true).1) ∧
    ((loopTick cfg tcc s inp).terminated = true →
      Effect.writePin cfg.networkStatusPin true ∈ (loopTick cfg tcc s inp).effects) ∧
    (Effect.getIP ∈ (loopTick cfg tcc s inp).effects ↔
      ((loopTick cfg tcc s inp).terminated = false ∧
       s.loopCount % cfg.netCheckDivisor = 0 ∧ cfg.networkStatusOn = true)) := by
  refine ⟨⟨by simp [startupEffects], by simp [startupEffects]⟩, ?_, ?_⟩
  · intro hterm
    by_cases hsd : (shutdownStep cfg.sdActivateCount s.sdCount inp.sdLevel).2 = true
    · simp [loopTick, hsd]
    · simp [loopTick, hsd] at hterm
  · by_cases hsd : (shutdownStep cfg.sdActivateCount s.sdCount inp.sdLevel).2 = true
    · simp [loopTick, hsd, cosEffects_no_getIP]
    · by_cases hnet : s.loopCount % cfg.netCheckDivisor = 0 ∧ cfg.networkStatusOn = true
      · simp [loopTick, hsd, hnet]
      · simp [loopTick, hsd, hnet, cosEffects_no_getIP]

/-- Witness for `networkStatusPin_unconditional` at a concrete configuration
and a pass in which the shutdown switch activates. -/
theorem networkStatusPin_unconditional_witness :
    (Effect.pinModeOutput cfgDefault.networkStatusPin ∈ (startupEffects cfgDefault true).1 ∧
     Effect.writePin cfgDefault.networkStatusPin false ∈ (startupEffects cfgDefault true).1) ∧
    ((loopTick cfgDefault 1500 (initState false 30) ⟨false, false, 0⟩).terminated = true →
      Effect.writePin cfgDefault.networkStatusPin true ∈
        (loopTick cfgDefault 1500 (initState false 30) ⟨false, false, 0⟩).effects) ∧
    (Effect.getIP ∈ (loopTick cfgDefault 1500 (initState false 30) ⟨false, false, 0⟩).effects ↔
      ((loopTick cfgDefault 1500 (initState false 30) ⟨false, false, 0⟩).terminated = false ∧
       (initState false 30).loopCount % cfgDefault.netCheckDivisor = 0 ∧
       cfgDefault.networkStatusOn = true)) :=
  networkStatusPin_unconditional cfgDefault 1500 (initState false 30) ⟨false, false, 0⟩

end COSmon
